import Mathlib

/-!
Shallow embedding of `src/main.cpp`, an in-memory library catalog:
polymorphic `Book` variants (printed, electronic, audio) stored by clone
in a `Catalog`, `User` variants (student, librarian) with a borrow
counter, and a `Library` issuing monotonically increasing book ids.

C++ mutation becomes explicit state passing: a method that mutates its
receiver returns the updated value (paired with its C++ return value when
it has one).  `std::string` becomes `String`, `int` becomes `Int`, and
the two `double` payload fields (`sizeMB`, `duration`) are modelled as
`Rat`; `cout << fixed << setprecision(1)` on them is modelled by `fixed1`
below, which renders one decimal digit (rounding to nearest).  Output
written to `cout` by a print method is modelled as the `String` the
method returns.
-/

/-- `class Author` from main.cpp: a name wrapper. -/
structure Author where
  name : String
deriving DecidableEq

/-- `Author::getName`. -/
def Author.getName (a : Author) : String := a.name

/-- The variant-specific payload of the three `Book` subclasses:
`PrintedBook::pages`, `EBook::sizeMB`, `AudioBook::duration`. -/
inductive BookVariant where
  | printed (pages : Int)
  | ebook (sizeMB : Rat)
  | audio (duration : Rat)
deriving DecidableEq

/-- The fields of `class Book` (base-class fields plus the subclass
payload, since the subclass set is closed). -/
structure Book where
  id : Int
  title : String
  author : Author
  year : Int
  available : Bool
  genre : String
  variant : BookVariant
deriving DecidableEq

/-- The `PrintedBook` constructor: forwards to `Book::Book`, which sets
`available(true)`, and stores the page count. -/
def PrintedBook.make (i : Int) (t : String) (a : Author) (y : Int) (g : String)
    (p : Int) : Book :=
  { id := i, title := t, author := a, year := y, available := true, genre := g,
    variant := .printed p }

/-- The `EBook` constructor. -/
def EBook.make (i : Int) (t : String) (a : Author) (y : Int) (g : String)
    (s : Rat) : Book :=
  { id := i, title := t, author := a, year := y, available := true, genre := g,
    variant := .ebook s }

/-- The `AudioBook` constructor. -/
def AudioBook.make (i : Int) (t : String) (a : Author) (y : Int) (g : String)
    (d : Rat) : Book :=
  { id := i, title := t, author := a, year := y, available := true, genre := g,
    variant := .audio d }

/-- `Book::borrow`: `if (!available) return false; available = false;
return true;`.  Returns the C++ return value paired with the updated
receiver. -/
def Book.borrow (b : Book) : Bool × Book :=
  if !b.available then (false, b) else (true, { b with available := false })

/-- `Book::returnBook`: `available = true;` unconditionally. -/
def Book.returnBook (b : Book) : Book :=
  { b with available := true }

/-- `Book::getTitle`. -/
def Book.getTitle (b : Book) : String := b.title

/-- One-decimal fixed-point rendering of a `Rat`, modelling
`cout << fixed << setprecision(1)` on the `double` fields. -/
def fixed1 (q : Rat) : String :=
  let n : Int := (q * 10 + 1 / 2).floor
  let sign := if n < 0 then "-" else ""
  sign ++ toString (n.natAbs / 10) ++ "." ++ toString (n.natAbs % 10)

/-- `printInfo` of the three subclasses (virtual dispatch on the
variant), modelled as the line written to `cout`. -/
def Book.printInfo (b : Book) : String :=
  match b.variant with
  | .printed p =>
      "[Printed] " ++ b.title ++ " (" ++ toString b.year ++ "), "
        ++ b.author.getName ++ ", " ++ toString p ++ " pages, "
        ++ (if b.available then "available" else "borrowed") ++ "\n"
  | .ebook s =>
      "[EBook] " ++ b.title ++ " (" ++ toString b.year ++ "), "
        ++ b.author.getName ++ ", " ++ fixed1 s ++ " MB, "
        ++ (if b.available then "available" else "borrowed") ++ "\n"
  | .audio d =>
      "[Audio] " ++ b.title ++ " (" ++ toString b.year ++ "), "
        ++ b.author.getName ++ ", " ++ fixed1 d ++ " hours, "
        ++ (if b.available then "available" else "borrowed") ++ "\n"

/-- `clone()` of each subclass copy-constructs a new object with the same
field values; on the value embedding that is the identity on the field
record. -/
def Book.clone (b : Book) : Book := b

/-- `class Catalog`: `vector<unique_ptr<Book>> books`. -/
structure Catalog where
  books : List Book
deriving DecidableEq

/-- `Catalog::addBook`: `books.push_back(b.clone());`. -/
def Catalog.addBook (c : Catalog) (b : Book) : Catalog :=
  { books := c.books ++ [b.clone] }

/-- `Catalog::listAll`: `for (const auto& b : books) b->printInfo();` —
the sequence of lines written, one per stored book in order. -/
def Catalog.listAll (c : Catalog) : List String :=
  c.books.map Book.printInfo

/-- `Catalog::search`: collects (pointers to) the stored books
satisfying the predicate, in storage order. -/
def Catalog.search (c : Catalog) (p : Book → Bool) : List Book :=
  c.books.filter p

/-- The role-specific payload of the two `User` subclasses:
`Student::{faculty, yearStudy}`, `Librarian::employeeId`. -/
inductive UserRole where
  | student (faculty : String) (yearStudy : Int)
  | librarian (employeeId : String)
deriving DecidableEq

/-- The fields of `class User` plus the subclass payload. -/
structure User where
  name : String
  borrowed : Int
  role : UserRole
deriving DecidableEq

/-- The `Student` constructor: `User(move(n))` sets `borrowed(0)`. -/
def Student.make (n f : String) (y : Int) : User :=
  { name := n, borrowed := 0, role := .student f y }

/-- The `Librarian` constructor. -/
def Librarian.make (n i : String) : User :=
  { name := n, borrowed := 0, role := .librarian i }

/-- `User::borrowBook`: `borrowed++;` with no validation. -/
def User.borrowBook (u : User) : User :=
  { u with borrowed := u.borrowed + 1 }

/-- `User::returnBook`: `if (borrowed > 0) borrowed--;`. -/
def User.returnBook (u : User) : User :=
  if u.borrowed > 0 then { u with borrowed := u.borrowed - 1 } else u

/-- `canBorrow()` (virtual): `Student` returns `borrowed < 5`,
`Librarian` returns `true`. -/
def User.canBorrow (u : User) : Bool :=
  match u.role with
  | .student _ _ => decide (u.borrowed < 5)
  | .librarian _ => true

/-- `showRole()` (virtual), modelled as the line written to `cout`. -/
def User.showRole (u : User) : String :=
  match u.role with
  | .student f y => u.name ++ " - Student, " ++ f ++ ", year " ++ toString y ++ "\n"
  | .librarian i => u.name ++ " - Librarian, ID: " ++ i ++ "\n"

/-- An event in a user's life: one call to `borrowBook` or
`returnBook`. -/
inductive UserOp where
  | borrowBook
  | returnBook
deriving DecidableEq

/-- Apply a sequence of borrow/return calls to a user, left to right. -/
def applyUserOps (u : User) : List UserOp → User
  | [] => u
  | .borrowBook :: ops => applyUserOps u.borrowBook ops
  | .returnBook :: ops => applyUserOps u.returnBook ops

/-- `class Library`: one catalog, the users, and the id counter. -/
structure Library where
  catalog : Catalog
  users : List User
  nextBookId : Int
deriving DecidableEq

/-- A default-constructed `Library`: in-class initializers give an empty
catalog, no users, and `nextBookId = 1`. -/
def Library.init : Library :=
  { catalog := { books := [] }, users := [], nextBookId := 1 }

/-- `Library::newBookId`: `return nextBookId++;` — the returned value is
the counter before the increment. -/
def Library.newBookId (l : Library) : Int × Library :=
  (l.nextBookId, { l with nextBookId := l.nextBookId + 1 })

/-- `Library::addStudent`: constructs a `Student`, appends it, and
returns (a reference to) it. -/
def Library.addStudent (l : Library) (n f : String) (y : Int) : User × Library :=
  let u := Student.make n f y
  (u, { l with users := l.users ++ [u] })

/-- `Library::addLibrarian`. -/
def Library.addLibrarian (l : Library) (n i : String) : User × Library :=
  let u := Librarian.make n i
  (u, { l with users := l.users ++ [u] })

/-- `Library::listUsers`: one `showRole()` line per user in order. -/
def Library.listUsers (l : Library) : List String :=
  l.users.map User.showRole

/-- `newBookId` called `n` times in a row, collecting the returned
ids. -/
def Library.issueIds (l : Library) : Nat → List Int × Library
  | 0 => ([], l)
  | Nat.succ m =>
      let r := l.newBookId
      let rest := r.2.issueIds m
      (r.1 :: rest.1, rest.2)

/-! ## Spec-side definitions for the display-format refinement (C2)

These follow the spec's format sentence, to be compared with
`Book.printInfo` from the source. -/

/-- Modelled from the spec: the tag actually printed in front of each
line by the three `printInfo` overrides. -/
def variantTag : BookVariant → String
  | .printed _ => "Printed"
  | .ebook _ => "EBook"
  | .audio _ => "Audio"

/-- Modelled from the spec: `<measurement> <unit>` — pages, size in MB,
or duration in hours, per variant. -/
def measurement : BookVariant → String
  | .printed p => toString p ++ " pages"
  | .ebook s => fixed1 s ++ " MB"
  | .audio d => fixed1 d ++ " hours"

/-- Modelled from the spec: the fixed line format
`[Variant] Title (Year), AuthorName, <measurement> <unit>,
available|borrowed`, parameterised by the tag and the rendered
measurement. -/
def specLine (tag : String) (b : Book) (meas : String) : String :=
  "[" ++ tag ++ "] " ++ b.title ++ " (" ++ toString b.year ++ "), "
    ++ b.author.getName ++ ", " ++ meas ++ ", "
    ++ (if b.available then "available" else "borrowed") ++ "\n"

/-! ## Helper lemmas -/

/-- `borrowed` stays non-negative under any sequence of
`borrowBook`/`returnBook` calls. -/
theorem applyUserOps_nonneg (ops : List UserOp) :
    ∀ u : User, 0 ≤ u.borrowed → 0 ≤ (applyUserOps u ops).borrowed := by
  induction ops with
  | nil => intro u h; exact h
  | cons op ops ih =>
      intro u h
      cases op with
      | borrowBook =>
          refine ih _ ?_
          simp only [User.borrowBook]
          omega
      | returnBook =>
          refine ih _ ?_
          unfold User.returnBook
          split
          · simp only
            omega
          · exact h

/-- The ids issued by `n` successive `newBookId` calls are the `n`
consecutive integers starting at the current counter, and the counter
ends `n` higher. -/
theorem issueIds_eq (n : Nat) :
    ∀ l : Library, (l.issueIds n).1 = (List.range n).map (fun k : Nat => l.nextBookId + (k : Int))
      ∧ (l.issueIds n).2.nextBookId = l.nextBookId + n := by
  induction n with
  | zero => intro l; simp [Library.issueIds]
  | succ m ih =>
      intro l
      obtain ⟨h1, h2⟩ := ih (l.newBookId).2
      have hnext : (l.newBookId).2.nextBookId = l.nextBookId + 1 := rfl
      constructor
      · show l.nextBookId :: ((l.newBookId).2.issueIds m).1 = _
        rw [h1, hnext, List.range_succ_eq_map, List.map_cons, List.map_map]
        simp only [Nat.cast_zero, add_zero, List.cons.injEq, true_and]
        refine List.map_congr_left ?_
        intro a _
        simp only [Function.comp_apply]
        push_cast
        ring
      · show ((l.newBookId).2.issueIds m).2.nextBookId = _
        rw [h2, hnext]
        push_cast
        ring

/-! ## The claims -/

/-- Claim C1: `borrow()` succeeds iff the book was available immediately
before the call; on success it sets `available` to `false`, and on
failure it leaves the book's entire state unchanged. -/
theorem borrow_success_iff_available (b : Book) :
    (b.borrow).1 = b.available ∧
    (b.borrow).2 = (if b.available then { b with available := false } else b) := by
  unfold Book.borrow
  cases b.available <;> simp

/-- Claim C2 (counterexample): at a concrete `AudioBook`, the line
`listAll()` emits is not the claimed format with variant tag
`AudioBook`: the code prints the tag `Audio`. -/
theorem audioBook_tag_counterexample :
    (Catalog.addBook { books := [] }
        (AudioBook.make 3 "Book3" { name := "Author3" } 2019 "Drama" 3)).listAll ≠
      [specLine "AudioBook"
        (AudioBook.make 3 "Book3" { name := "Author3" } 2019 "Drama" 3)
        (fixed1 3 ++ " hours")] := by
  decide

/-- Claim C2 (amended): `listAll()` emits the `printInfo` line of every
stored book in insertion order, and every book's line has the fixed
format `[Tag] Title (Year), AuthorName, <measurement> <unit>,
available|borrowed`, where the tag is `Printed`, `EBook` or `Audio` per
variant, the measurement is pages / size in MB / duration in hours
respectively, and the last field reflects the availability flag. -/
theorem listAll_line_format (c : Catalog) (b : Book) :
    c.listAll = c.books.map Book.printInfo ∧
    b.printInfo = specLine (variantTag b.variant) b (measurement b.variant) := by
  refine ⟨rfl, ?_⟩
  obtain ⟨i, t, a, y, av, g, v⟩ := b
  cases v <;>
    simp [Book.printInfo, specLine, variantTag, measurement, Author.getName,
      String.append_assoc]

/-- Claim C3: `search(predicate)` returns, in insertion order, exactly
the stored books for which the predicate holds: the result is a sublist
of the stored sequence (so order is preserved) whose members are
precisely the stored books satisfying the predicate; instantiated at
the availability predicate, it is exactly the currently available
subset. -/
theorem search_exactly_matching (c : Catalog) (p : Book → Bool) :
    (c.search p).Sublist c.books ∧
    (∀ b : Book, b ∈ c.search p ↔ b ∈ c.books ∧ p b = true) ∧
    (∀ b : Book, b ∈ c.search (fun x => x.available) ↔ b ∈ c.books ∧ b.available = true) := by
  refine ⟨List.filter_sublist _, ?_, ?_⟩ <;>
    intro b <;> simp [Catalog.search, List.mem_filter]

/-- Claim C4: `canBorrow()` is the variant-dependent policy — a student
may borrow iff `borrowedCount < 5`, whatever the count is; a librarian
may always borrow, at every count. -/
theorem canBorrow_policy (u : User) :
    (∀ f : String, ∀ y : Int, u.role = .student f y →
        (u.canBorrow = true ↔ u.borrowed < 5)) ∧
    (∀ i : String, u.role = .librarian i → u.canBorrow = true) := by
  constructor
  · intro f y h
    simp [User.canBorrow, h]
  · intro i h
    simp [User.canBorrow, h]

/-- Claim C5: `borrowedCount` is 0 at construction of either user
variant; `recordBorrow` (`User::borrowBook`) increments it
unconditionally; `recordReturn` (`User::returnBook`) decrements a
positive count and at count zero is a no-op (clamping at zero); and
the count stays non-negative under every sequence of borrow/return
calls. -/
theorem borrowedCount_invariant (n f i : String) (y : Int) (ops : List UserOp) (u : User) :
    (Student.make n f y).borrowed = 0 ∧
    (Librarian.make n i).borrowed = 0 ∧
    u.borrowBook.borrowed = u.borrowed + 1 ∧
    (0 < u.borrowed → u.returnBook.borrowed = u.borrowed - 1) ∧
    (u.borrowed = 0 → u.returnBook = u) ∧
    0 ≤ (applyUserOps (Student.make n f y) ops).borrowed ∧
    0 ≤ (applyUserOps (Librarian.make n i) ops).borrowed := by
  refine ⟨rfl, rfl, rfl, ?_, ?_, ?_, ?_⟩
  · intro h
    unfold User.returnBook
    rw [if_pos h]
  · intro h
    unfold User.returnBook
    rw [h]
    simp
  · exact applyUserOps_nonneg ops _ (by simp [Student.make])
  · exact applyUserOps_nonneg ops _ (by simp [Librarian.make])

/-- Claim C6: in a fresh `Library` the id counter starts at 1;
`newBookId` returns the current counter and increments it by one; `n`
successive calls yield the `n` distinct consecutive integers `1..n`,
and the counter ends at `1 + n` (never decremented, so no id is ever
issued twice). -/
theorem issueNextBookId_spec (n : Nat) :
    Library.init.nextBookId = 1 ∧
    (Library.init.issueIds n).1 = (List.range n).map (fun k : Nat => (1 : Int) + k) ∧
    (Library.init.issueIds n).1.Nodup ∧
    (Library.init.issueIds n).2.nextBookId = 1 + n ∧
    (∀ l : Library, (l.newBookId).1 = l.nextBookId ∧
      (l.newBookId).2.nextBookId = l.nextBookId + 1) := by
  obtain ⟨h1, h2⟩ := issueIds_eq n Library.init
  refine ⟨rfl, h1, ?_, h2, fun l => ⟨rfl, rfl⟩⟩
  rw [show ((Library.init.issueIds n).1 : List Int)
      = (List.range n).map (fun k : Nat => (1 : Int) + k) from h1]
  refine List.Nodup.map ?_ (List.nodup_range n)
  intro a b hab
  simp at hab
  omega

/-- A concrete book and an empty catalog, used by the witnesses. -/
def duneBook : Book :=
  PrintedBook.make 1 "Dune" { name := "Herbert" } 1965 "SciFi" 412

/-- The empty catalog, used by the witnesses. -/
def emptyCatalog : Catalog := { books := [] }

/-- Claim C7: `addBook` appends a clone of the argument; the clone's
`printInfo` equals the original's at insertion time; and afterwards
borrowing the caller's original flips the original but leaves the
stored entry available, while borrowing the stored clone yields a
borrowed value without touching the original (no aliasing: the catalog
owns an independent copy). -/
theorem addBook_stores_clone (c : Catalog) (b : Book) (h : b.available = true) :
    (c.addBook b).books = c.books ++ [b.clone] ∧
    b.clone.printInfo = b.printInfo ∧
    (b.borrow).2.available = false ∧
    ((c.addBook b).books.getLast?).map Book.available = some true ∧
    (b.clone.borrow).2.available = false := by
  refine ⟨rfl, rfl, ?_, ?_, ?_⟩
  · simp [Book.borrow, h]
  · show ((c.books ++ [b.clone]).getLast?).map Book.available = some true
    rw [List.getLast?_concat]
    simp [Book.clone, h]
  · simp [Book.clone, Book.borrow, h]

/-- Witness for C7 at a concrete catalog and book. -/
theorem addBook_stores_clone_witness :
    (emptyCatalog.addBook duneBook).books = emptyCatalog.books ++ [duneBook.clone] ∧
    duneBook.clone.printInfo = duneBook.printInfo ∧
    (duneBook.borrow).2.available = false ∧
    ((emptyCatalog.addBook duneBook).books.getLast?).map Book.available = some true ∧
    (duneBook.clone.borrow).2.available = false :=
  addBook_stores_clone emptyCatalog duneBook (by decide)

/-- Claim C8: `returnBook()` unconditionally makes the book available
(also when it already was), and each availability cycle admits exactly
one successful borrow: on an available book `borrow()` succeeds, an
immediate second `borrow()` fails, and after `returnBook()` the next
`borrow()` succeeds again. -/
theorem borrow_once_per_cycle (b : Book) (h : b.available = true) :
    b.returnBook = { b with available := true } ∧
    (b.borrow).2.returnBook = { b with available := true } ∧
    (b.borrow).1 = true ∧
    ((b.borrow).2.borrow).1 = false ∧
    (((b.borrow).2.returnBook).borrow).1 = true := by
  refine ⟨rfl, ?_, ?_, ?_, ?_⟩ <;> simp [Book.borrow, Book.returnBook, h]

/-- Witness for C8 at a concrete book. -/
theorem borrow_once_per_cycle_witness :
    duneBook.returnBook = { duneBook with available := true } ∧
    (duneBook.borrow).2.returnBook = { duneBook with available := true } ∧
    (duneBook.borrow).1 = true ∧
    ((duneBook.borrow).2.borrow).1 = false ∧
    (((duneBook.borrow).2.returnBook).borrow).1 = true :=
  borrow_once_per_cycle duneBook (by decide)

/-- Claim C9: every constructed book of every variant starts available,
whatever the constructor arguments. -/
theorem new_books_available (i : Int) (t : String) (a : Author) (y : Int)
    (g : String) (p : Int) (s d : Rat) :
    (PrintedBook.make i t a y g p).available = true ∧
    (EBook.make i t a y g s).available = true ∧
    (AudioBook.make i t a y g d).available = true :=
  ⟨rfl, rfl, rfl⟩

/-- Claim C10: for every book — available or not — `borrow()` and
`returnBook()` touch only the availability flag: id, title, author,
year, genre and the variant payload are unchanged by either call
(including the failing no-op `borrow()`); and on an available book a
successful `borrow()` followed by `returnBook()` restores the book
exactly. -/
theorem borrow_return_frame (b : Book) :
    (b.borrow).2.id = b.id ∧ (b.borrow).2.title = b.title ∧
    (b.borrow).2.author = b.author ∧ (b.borrow).2.year = b.year ∧
    (b.borrow).2.genre = b.genre ∧ (b.borrow).2.variant = b.variant ∧
    b.returnBook.id = b.id ∧ b.returnBook.title = b.title ∧
    b.returnBook.author = b.author ∧ b.returnBook.year = b.year ∧
    b.returnBook.genre = b.genre ∧ b.returnBook.variant = b.variant ∧
    (b.available = true → (b.borrow).2.returnBook = b) := by
  obtain ⟨i, t, a, y, av, g, v⟩ := b
  cases av
  · exact ⟨rfl, rfl, rfl, rfl, rfl, rfl, rfl, rfl, rfl, rfl, rfl, rfl,
      fun h => Bool.noConfusion h⟩
  · exact ⟨rfl, rfl, rfl, rfl, rfl, rfl, rfl, rfl, rfl, rfl, rfl, rfl,
      fun h => rfl⟩
